import Mathlib

/-!
Shallow embedding of the SafeShipper ESP32 sensor-node firmware
(src/hardware/esp32_sensor_node.cpp) and proofs about its operational
loop, telemetry collection, heartbeat and command exchange, and the
low-battery deep-sleep path.

Sensor drivers, the HTTP transport and the JSON codec are external
collaborators; their results enter the model as inputs (an `Option`
models a driver returning NaN / an unparsable body).  Outbound side
effects are recorded as an explicit list of `Action`s in the order the
code performs them.
-/

namespace SensorNode

/-- DATA_INTERVAL from the source: send data every 60 seconds (in ms). -/
def DATA_INTERVAL : ℕ := 60000

/-- HEARTBEAT_INTERVAL from the source: heartbeat every 5 minutes (in ms). -/
def HEARTBEAT_INTERVAL : ℕ := 300000

/-- 2^32, the modulus of the unsigned long millisecond clock. -/
def U32 : ℕ := 4294967296

/-- Elapsed time `currentTime - last` computed in unsigned 32-bit
arithmetic, as the C expression `currentTime - lastDataSend` does. -/
def elapsedSince (now last : ℕ) : ℕ :=
  (now % U32 + U32 - last % U32) % U32

/-- The sensor_type strings used in the wire payloads. -/
inductive SensorType
  | temperature
  | humidity
  | location
  | acceleration
  | battery
deriving DecidableEq

/-- additional_data sub-object of a reading: lat/lng/alt/speed/satellites
for location, x/y/z for acceleration. -/
inductive AdditionalData
  | locationData (lat lng alt speed : ℚ) (satellites : ℕ)
  | accelData (x y z : ℚ)
deriving DecidableEq

/-- One element of the telemetry batch, as built in sendSensorData. -/
structure Reading where
  sensor_type : SensorType
  value : ℚ
  unit : String
  timestamp : ℕ
  quality_score : ℚ
  additional_data : Option AdditionalData
deriving DecidableEq

/-- Raw driver outputs consumed during one collection cycle.
`none` for temperature or humidity models `isnan` from the DHT driver;
`gpsValid` models `gps.location.isValid()`.  `accelMag` is the value of
`sqrt(pow(ax/16384.0,2)+pow(ay/16384.0,2)+pow(az/16384.0,2))` as
computed by the external math library. -/
structure SensorInputs where
  temperature : Option ℚ
  humidity : Option ℚ
  gpsValid : Bool
  gpsLat : ℚ
  gpsLng : ℚ
  gpsAlt : ℚ
  gpsSpeed : ℚ
  gpsSatellites : ℕ
  ax : ℤ
  ay : ℤ
  az : ℤ
  accelMag : ℚ
deriving DecidableEq

/-- The temperature reading object (lines 161-170). -/
def tempReading (now : ℕ) (v : ℚ) : Reading :=
  ⟨SensorType.temperature, v, "°C", now, 1, none⟩

/-- The humidity reading object (lines 172-181). -/
def humReading (now : ℕ) (v : ℚ) : Reading :=
  ⟨SensorType.humidity, v, "%", now, 1, none⟩

/-- The location reading object (lines 183-198); value is the literal 0,
the fix goes into additional_data, and the quality score is
`gps.satellites.value() > 4 ? 1.0 : 0.5`. -/
def locationReading (now : ℕ) (s : SensorInputs) : Reading :=
  ⟨SensorType.location, 0, "gps", now,
    if 4 < s.gpsSatellites then 1 else 1/2,
    some (AdditionalData.locationData s.gpsLat s.gpsLng s.gpsAlt s.gpsSpeed s.gpsSatellites)⟩

/-- The acceleration reading object (lines 200-216), appended with no
validity guard. -/
def accelReading (now : ℕ) (s : SensorInputs) : Reading :=
  ⟨SensorType.acceleration, s.accelMag, "g", now, 1,
    some (AdditionalData.accelData ((s.ax : ℚ)/16384) ((s.ay : ℚ)/16384) ((s.az : ℚ)/16384))⟩

/-- The batch built by sendSensorData (lines 158-217): temperature and
humidity only when not NaN, location only when the fix is valid, and the
acceleration reading unconditionally. -/
def collectReadings (now : ℕ) (s : SensorInputs) : List Reading :=
  (match s.temperature with
    | some v => [tempReading now v]
    | none => []) ++
  (match s.humidity with
    | some v => [humReading now v]
    | none => []) ++
  (if s.gpsValid then [locationReading now s] else []) ++
  [accelReading now s]

/-- Battery voltage from the raw ADC sample (readBatteryVoltage,
lines 343-346): `(rawValue / 4095.0) * 3.3 * 2`. -/
def batteryVoltage (raw : ℕ) : ℚ :=
  (raw : ℚ) / 4095 * (33/10) * 2

/-- Truncation toward zero, the effect of the C cast `(int)percentage`. -/
def ratTrunc (q : ℚ) : ℤ :=
  q.num / (q.den : ℤ)

/-- getBatteryPercentage (lines 348-357): linear interpolation between
3.0 V and 4.2 V, cast to int, constrained to [0,100]. -/
def getBatteryPercentage (raw : ℕ) : ℤ :=
  let minVoltage : ℚ := 3
  let maxVoltage : ℚ := 42/10
  let percentage := (batteryVoltage raw - minVoltage) / (maxVoltage - minVoltage) * 100
  let p := ratTrunc percentage
  if p < 0 then 0 else if 100 < p then 100 else p

/-- The heartbeat payload (sendHeartbeat, lines 247-262). -/
structure DeviceStatus where
  battery_level : ℤ
  signal_strength : ℤ
  firmware_version : String
  location : Option (ℚ × ℚ × ℚ)
  uptime : ℕ
  free_heap : ℕ
  wifi_rssi : ℤ
deriving DecidableEq

/-- Command type parsed from `command["command_type"]`; `other` carries
any string that is none of the four known types. -/
inductive CommandType
  | ping
  | reboot
  | sleep
  | update_interval
  | other (s : String)
deriving DecidableEq

/-- A remote command from the heartbeat response.  `duration` models
`command_data["duration"]`; `none` means the key is absent, in which
case `commandData["duration"] | 300` yields the default. -/
structure Command where
  id : String
  command_type : CommandType
  duration : Option ℤ
deriving DecidableEq

/-- Outbound side effects of the firmware, in program order:
the three HTTP POSTs, `esp_deep_sleep_start` with its wake timer in
seconds, and `ESP.restart()`. -/
inductive Action
  | postSensorData (readings : List Reading)
  | postHeartbeat (status : DeviceStatus)
  | postCommandResponse (command_id status message : String) (timestamp : ℕ)
  | deepSleepStart (wakeSeconds : ℤ)
  | espRestart
deriving DecidableEq

/-- An action that performs an outbound HTTP transmission. -/
def isTransmission : Action → Bool
  | Action.postSensorData _ => true
  | Action.postHeartbeat _ => true
  | Action.postCommandResponse _ _ _ _ => true
  | _ => false

/-- Whether a command's branch ends the run (`esp_deep_sleep_start` or
`ESP.restart()` never return). -/
inductive CmdEffect
  | proceed
  | halt
deriving DecidableEq

/-- processCommands dispatch for one command (lines 301-317).
Unknown types produce a single failed outcome and touch nothing else;
reboot and sleep send their outcome first and then end the run. -/
def processCommand (now : ℕ) (c : Command) : List Action × CmdEffect :=
  match c.command_type with
  | CommandType.ping =>
      ([Action.postCommandResponse c.id "executed" "pong" now], CmdEffect.proceed)
  | CommandType.reboot =>
      ([Action.postCommandResponse c.id "acknowledged" "rebooting" now,
        Action.espRestart], CmdEffect.halt)
  | CommandType.sleep =>
      let sleepTime : ℤ := c.duration.getD 300
      ([Action.postCommandResponse c.id "acknowledged" "entering sleep mode" now,
        Action.deepSleepStart sleepTime], CmdEffect.halt)
  | CommandType.update_interval =>
      ([Action.postCommandResponse c.id "executed" "interval updated" now], CmdEffect.proceed)
  | CommandType.other _ =>
      ([Action.postCommandResponse c.id "failed" "unknown command" now], CmdEffect.proceed)

/-- The processCommands loop (lines 293-319): strictly sequential and
abandoned at the first command whose branch does not return. -/
def processCommands (now : ℕ) : List Command → List Action × CmdEffect
  | [] => ([], CmdEffect.proceed)
  | c :: rest =>
      match processCommand now c with
      | (acts, CmdEffect.proceed) =>
          let r := processCommands now rest
          (acts ++ r.1, r.2)
      | (acts, CmdEffect.halt) => (acts, CmdEffect.halt)

/-- Transport and decode outcome of one heartbeat exchange.
`transportOk` models `httpResponseCode > 0`; `decoded` is the command
list from the response body, `none` when `deserializeJson` fails (which
leaves the document empty, so `responseDoc["commands"].size()` is 0). -/
structure HeartbeatInputs where
  transportOk : Bool
  decoded : Option (List Command)
deriving DecidableEq

/-- The DeviceStatus payload built at the top of sendHeartbeat. -/
def deviceStatus (now : ℕ) (s : SensorInputs) (batteryRaw : ℕ) (rssi : ℤ)
    (freeHeap : ℕ) : DeviceStatus :=
  ⟨getBatteryPercentage batteryRaw, rssi, "1.0.0",
    if s.gpsValid then some (s.gpsLat, s.gpsLng, s.gpsAlt) else none,
    now, freeHeap, rssi⟩

/-- sendHeartbeat (lines 244-291): unconditionally POSTs the status; on
transport success decodes the response and, when the command list is
non-empty, dispatches it. -/
def sendHeartbeatActions (now : ℕ) (s : SensorInputs) (batteryRaw : ℕ) (rssi : ℤ)
    (freeHeap : ℕ) (hb : HeartbeatInputs) : List Action × CmdEffect :=
  let post := Action.postHeartbeat (deviceStatus now s batteryRaw rssi freeHeap)
  if hb.transportOk then
    let cmds := hb.decoded.getD []
    if 0 < cmds.length then
      let r := processCommands now cmds
      (post :: r.1, r.2)
    else ([post], CmdEffect.proceed)
  else ([post], CmdEffect.proceed)

/-- The low-battery alert document built (but never POSTed) in
enterDeepSleep (lines 377-381). -/
structure BatteryAlert where
  sensor_type : SensorType
  value : ℤ
  unit : String
  timestamp : ℕ
deriving DecidableEq

/-- enterDeepSleep (lines 373-386): constructs the alert document, then
arms a one-hour wake timer and sleeps.  No HTTP call occurs. -/
def enterDeepSleep (now : ℕ) (batteryRaw : ℕ) : BatteryAlert × List Action :=
  (⟨SensorType.battery, getBatteryPercentage batteryRaw, "%", now⟩,
   [Action.deepSleepStart 3600])

/-- The scheduler's own mutable state: the two last-send timers and the
cached link flag. -/
structure DeviceState where
  lastDataSend : ℕ
  lastHeartbeat : ℕ
  wifiConnected : Bool
deriving DecidableEq

/-- Environment of one loop iteration.  `wifiStatusConnected` is
`WiFi.status() == WL_CONNECTED` at the top of the iteration;
`reconnectSucceeds` is the outcome of `connectToWiFi()` when it is
invoked.  `batteryRawCheck` is the ADC sample of the low-battery check
at line 121, `batteryRawHb` the one inside the heartbeat's
getBatteryPercentage, `batteryRawSleep` the one inside enterDeepSleep. -/
structure LoopInputs where
  currentTime : ℕ
  wifiStatusConnected : Bool
  reconnectSucceeds : Bool
  sensors : SensorInputs
  batteryRawHb : ℕ
  batteryRawCheck : ℕ
  batteryRawSleep : ℕ
  rssi : ℤ
  freeHeap : ℕ
  hb : HeartbeatInputs
deriving DecidableEq

/-- The link flag after the connectivity re-evaluation of lines 96-102. -/
def linkState (inp : LoopInputs) : Bool :=
  inp.wifiStatusConnected || inp.reconnectSucceeds

/-- sendSensorData's send step (lines 219-241): one POST when the batch
is non-empty, nothing otherwise. -/
def sendSensorDataActions (now : ℕ) (s : SensorInputs) : List Action :=
  let readings := collectReadings now s
  if 0 < readings.length then [Action.postSensorData readings] else []

/-- One iteration of loop() (lines 88-127): connectivity check, the
telemetry and heartbeat interval gates, then the low-battery check.
Returns the actions performed in order, and the successor state —
`none` when the run ended (deep sleep or restart). -/
def loopIteration (st : DeviceState) (inp : LoopInputs) : List Action × Option DeviceState :=
  let now := inp.currentTime
  let wifi := linkState inp
  let t :=
    if DATA_INTERVAL ≤ elapsedSince now st.lastDataSend then
      if wifi then (sendSensorDataActions now inp.sensors, now)
      else ([], st.lastDataSend)
    else ([], st.lastDataSend)
  let h :=
    if HEARTBEAT_INTERVAL ≤ elapsedSince now st.lastHeartbeat then
      if wifi then
        let r := sendHeartbeatActions now inp.sensors inp.batteryRawHb inp.rssi inp.freeHeap inp.hb
        (r.1, r.2, now)
      else ([], CmdEffect.proceed, st.lastHeartbeat)
    else ([], CmdEffect.proceed, st.lastHeartbeat)
  match h.2.1 with
  | CmdEffect.halt => (t.1 ++ h.1, none)
  | CmdEffect.proceed =>
      if batteryVoltage inp.batteryRawCheck < 33/10 then
        (t.1 ++ h.1 ++ (enterDeepSleep now inp.batteryRawSleep).2, none)
      else
        (t.1 ++ h.1, some ⟨t.2, h.2.2, wifi⟩)

/-- setup() (lines 64-86): `connectToWiFi()` runs with a bounded attempt
budget and may leave `wifiConnected` false, after which `sendHeartbeat()`
is called unconditionally.  Returns the link flag after the connect
attempt together with the actions of the initial heartbeat. -/
def setupRun (connectSucceeds : Bool) (now : ℕ) (s : SensorInputs) (batteryRaw : ℕ)
    (rssi : ℤ) (freeHeap : ℕ) (hb : HeartbeatInputs) : Bool × List Action × CmdEffect :=
  let r := sendHeartbeatActions now s batteryRaw rssi freeHeap hb
  (connectSucceeds, r.1, r.2)

/-- Readings of one sensor kind within a batch. -/
def readingsOfType (t : SensorType) (l : List Reading) : List Reading :=
  l.filter (fun r => decide (r.sensor_type = t))

/-- A sensor-input record containing at least one invalid sample: NaN
temperature, NaN humidity, or an invalid GPS fix. -/
def hasInvalid (s : SensorInputs) : Prop :=
  s.temperature = none ∨ s.humidity = none ∨ s.gpsValid = false

/-- No command in the list ends the run. -/
def noTerminalCmd (cmds : List Command) : Prop :=
  ∀ c ∈ cmds, c.command_type ≠ CommandType.reboot ∧ c.command_type ≠ CommandType.sleep

/-- Concrete sensor inputs: all sensors healthy, GPS fix with 3 satellites. -/
def sampleSensors : SensorInputs :=
  ⟨some 22, some 55, true, 1, 2, 3, 4, 3, 0, 0, 16384, 1⟩

/-- Concrete sensor inputs with a NaN temperature and no GPS fix. -/
def invalidSensors : SensorInputs :=
  ⟨none, some 40, false, 0, 0, 0, 0, 2, 0, 0, 16384, 1⟩

/-! ### Helper lemmas -/

theorem processCommands_proceed (now : ℕ) (cmds : List Command) (h : noTerminalCmd cmds) :
    (processCommands now cmds).2 = CmdEffect.proceed := by
  induction cmds with
  | nil => rfl
  | cons c rest ih =>
      have hc := h c (List.mem_cons_self c rest)
      have hrest : noTerminalCmd rest := fun x hx => h x (List.mem_cons_of_mem c hx)
      cases hct : c.command_type with
      | ping => simp [processCommands, processCommand, hct, ih hrest]
      | reboot => exact absurd hct hc.1
      | sleep => exact absurd hct hc.2
      | update_interval => simp [processCommands, processCommand, hct, ih hrest]
      | other s => simp [processCommands, processCommand, hct, ih hrest]

theorem processCommands_no_sensorData (now : ℕ) (cmds : List Command) (b : List Reading) :
    Action.postSensorData b ∉ (processCommands now cmds).1 := by
  induction cmds with
  | nil => simp [processCommands]
  | cons c rest ih =>
      cases hct : c.command_type with
      | ping => simp [processCommands, processCommand, hct, ih]
      | reboot => simp [processCommands, processCommand, hct]
      | sleep => simp [processCommands, processCommand, hct]
      | update_interval => simp [processCommands, processCommand, hct, ih]
      | other s => simp [processCommands, processCommand, hct, ih]

theorem sendHeartbeat_no_sensorData (now : ℕ) (s : SensorInputs) (braw : ℕ) (rssi : ℤ)
    (fh : ℕ) (hb : HeartbeatInputs) (b : List Reading) :
    Action.postSensorData b ∉ (sendHeartbeatActions now s braw rssi fh hb).1 := by
  unfold sendHeartbeatActions
  by_cases ht : hb.transportOk
  · by_cases hl : 0 < (hb.decoded.getD []).length
    · simp [ht, hl, processCommands_no_sensorData]
    · simp [ht, hl]
  · simp [ht]

/-! ### C5: sleep command -/

/-- C5: a sleep command takes its duration from the command parameters
(default 300 s when absent), sends the acknowledged outcome strictly
before the deep-sleep transition, and arms the wake timer with exactly
that duration; with duration 120 the wake timer is 120 seconds. -/
theorem C5_sleep_command (now : ℕ) (id : String) (d : ℤ) :
    processCommand now ⟨id, CommandType.sleep, some d⟩ =
      ([Action.postCommandResponse id "acknowledged" "entering sleep mode" now,
        Action.deepSleepStart d], CmdEffect.halt) ∧
    processCommand now ⟨id, CommandType.sleep, none⟩ =
      ([Action.postCommandResponse id "acknowledged" "entering sleep mode" now,
        Action.deepSleepStart 300], CmdEffect.halt) ∧
    processCommand now ⟨id, CommandType.sleep, some 120⟩ =
      ([Action.postCommandResponse id "acknowledged" "entering sleep mode" now,
        Action.deepSleepStart 120], CmdEffect.halt) :=
  ⟨rfl, rfl, rfl⟩

/-! ### C8: heartbeat decode failure -/

/-- C8: when the heartbeat transport call succeeds but the response body
fails to decode, the exchange behaves exactly as if an empty command
list had been received: only the heartbeat POST occurs, no command is
dispatched, and the device proceeds normally. -/
theorem C8_decode_failure_is_empty (now : ℕ) (s : SensorInputs) (braw : ℕ) (rssi : ℤ)
    (fh : ℕ) :
    sendHeartbeatActions now s braw rssi fh ⟨true, none⟩ =
      ([Action.postHeartbeat (deviceStatus now s braw rssi fh)], CmdEffect.proceed) ∧
    sendHeartbeatActions now s braw rssi fh ⟨true, none⟩ =
      sendHeartbeatActions now s braw rssi fh ⟨true, some []⟩ :=
  ⟨rfl, rfl⟩

/-! ### C10: low-battery alert is dead code -/

/-- C10: the low-battery path constructs the battery alert document
(sensor_type battery, value the battery percentage) but performs no
outbound transmission: its only actions are the deep-sleep transition
with a 3600-second (one hour) wake timer. -/
theorem C10_alert_built_never_sent (now raw : ℕ) :
    enterDeepSleep now raw =
      (⟨SensorType.battery, getBatteryPercentage raw, "%", now⟩,
       [Action.deepSleepStart 3600]) ∧
    (enterDeepSleep now raw).2.filter isTransmission = [] :=
  ⟨rfl, rfl⟩

/-! ### C4: location quality score -/

/-- C4: a location reading is emitted exactly when the GPS fix is valid;
its quality score is 1.0 when the satellite count exceeds 4 and 0.5
otherwise, so satellite count 3 yields 0.5 and 6 yields 1.0. -/
theorem C4_location_quality (now : ℕ) (s : SensorInputs) :
    (s.gpsValid = true →
      readingsOfType SensorType.location (collectReadings now s) = [locationReading now s]) ∧
    (s.gpsValid = false →
      readingsOfType SensorType.location (collectReadings now s) = []) ∧
    (locationReading now s).quality_score = (if 4 < s.gpsSatellites then 1 else 1/2) ∧
    (s.gpsSatellites = 3 → (locationReading now s).quality_score = 1/2) ∧
    (s.gpsSatellites = 6 → (locationReading now s).quality_score = 1) := by
  refine ⟨?_, ?_, rfl, ?_, ?_⟩
  · intro hv
    cases ht : s.temperature <;> cases hh : s.humidity <;>
      simp [collectReadings, readingsOfType, tempReading, humReading, locationReading,
        accelReading, hv, ht, hh]
  · intro hv
    cases ht : s.temperature <;> cases hh : s.humidity <;>
      simp [collectReadings, readingsOfType, tempReading, humReading, locationReading,
        accelReading, hv, ht, hh]
  · intro h3
    simp [locationReading, h3]
  · intro h6
    norm_num [locationReading, h6]

/-- C4 witness: with sampleSensors (valid fix, 3 satellites) the batch
contains exactly one location reading with quality score 0.5. -/
theorem C4_location_quality_witness :
    readingsOfType SensorType.location (collectReadings 0 sampleSensors) =
      [locationReading 0 sampleSensors] ∧
    (locationReading 0 sampleSensors).quality_score = 1/2 :=
  ⟨(C4_location_quality 0 sampleSensors).1 rfl,
   (C4_location_quality 0 sampleSensors).2.2.2.1 rfl⟩

/-! ### C3: invalid readings excluded -/

/-- C3: whenever at least one sensor sample is invalid, the collected
batch contains exactly the valid readings — temperature and humidity
when not NaN, location when the fix is valid, acceleration always — and
every entry carries its correct quality score (so no invalid reading is
ever forwarded as null or zero). -/
theorem C3_invalid_readings_excluded (now : ℕ) (s : SensorInputs) (h : hasInvalid s) :
    readingsOfType SensorType.temperature (collectReadings now s) =
      (match s.temperature with | some v => [tempReading now v] | none => []) ∧
    readingsOfType SensorType.humidity (collectReadings now s) =
      (match s.humidity with | some v => [humReading now v] | none => []) ∧
    readingsOfType SensorType.location (collectReadings now s) =
      (if s.gpsValid then [locationReading now s] else []) ∧
    readingsOfType SensorType.acceleration (collectReadings now s) = [accelReading now s] ∧
    (∀ r ∈ collectReadings now s,
      r.quality_score =
        (if r.sensor_type = SensorType.location then (if 4 < s.gpsSatellites then 1 else 1/2)
         else 1)) := by
  refine ⟨?_, ?_, ?_, ?_, ?_⟩
  · cases ht : s.temperature <;> cases hh : s.humidity <;> cases hv : s.gpsValid <;>
      simp [collectReadings, readingsOfType, tempReading, humReading, locationReading,
        accelReading, ht, hh, hv]
  · cases ht : s.temperature <;> cases hh : s.humidity <;> cases hv : s.gpsValid <;>
      simp [collectReadings, readingsOfType, tempReading, humReading, locationReading,
        accelReading, ht, hh, hv]
  · cases ht : s.temperature <;> cases hh : s.humidity <;> cases hv : s.gpsValid <;>
      simp [collectReadings, readingsOfType, tempReading, humReading, locationReading,
        accelReading, ht, hh, hv]
  · cases ht : s.temperature <;> cases hh : s.humidity <;> cases hv : s.gpsValid <;>
      simp [collectReadings, readingsOfType, tempReading, humReading, locationReading,
        accelReading, ht, hh, hv]
  · intro r hr
    rw [collectReadings] at hr
    rcases List.mem_append.1 hr with hr3 | h4
    · rcases List.mem_append.1 hr3 with hr2 | h3
      · rcases List.mem_append.1 hr2 with h1 | h2
        · cases ht : s.temperature with
          | none => rw [ht] at h1; exact absurd h1 (List.not_mem_nil r)
          | some v =>
              rw [ht] at h1
              have he : r = tempReading now v := List.mem_singleton.1 h1
              subst he; simp [tempReading]
        · cases hh : s.humidity with
          | none => rw [hh] at h2; exact absurd h2 (List.not_mem_nil r)
          | some v =>
              rw [hh] at h2
              have he : r = humReading now v := List.mem_singleton.1 h2
              subst he; simp [humReading]
      · by_cases hv : s.gpsValid = true
        · rw [if_pos hv] at h3
          have he : r = locationReading now s := List.mem_singleton.1 h3
          subst he; simp [locationReading]
        · rw [if_neg hv] at h3; exact absurd h3 (List.not_mem_nil r)
    · have he : r = accelReading now s := List.mem_singleton.1 h4
      subst he; simp [accelReading]

/-- C3 witness: with invalidSensors (NaN temperature, invalid fix) the
batch drops the temperature and location entries and keeps the humidity
and acceleration readings. -/
theorem C3_invalid_readings_excluded_witness :
    readingsOfType SensorType.temperature (collectReadings 0 invalidSensors) = [] ∧
    readingsOfType SensorType.humidity (collectReadings 0 invalidSensors) =
      [humReading 0 40] ∧
    readingsOfType SensorType.location (collectReadings 0 invalidSensors) = [] := by
  have h := C3_invalid_readings_excluded 0 invalidSensors (Or.inl rfl)
  exact ⟨h.1, h.2.1, h.2.2.1⟩

/-! ### Loop-level helper lemmas and concrete states -/

theorem sendHeartbeat_proceed (now : ℕ) (s : SensorInputs) (braw : ℕ) (rssi : ℤ) (fh : ℕ)
    (hb : HeartbeatInputs) (h : noTerminalCmd (hb.decoded.getD [])) :
    (sendHeartbeatActions now s braw rssi fh hb).2 = CmdEffect.proceed := by
  unfold sendHeartbeatActions
  by_cases ht : hb.transportOk <;> by_cases hl : 0 < (hb.decoded.getD []).length <;>
    simp [ht, hl, processCommands_proceed now _ h]

theorem collectReadings_ne_nil (now : ℕ) (s : SensorInputs) :
    collectReadings now s ≠ [] := by
  intro hc
  have hl := congrArg List.length hc
  simp only [collectReadings, List.length_append, List.length_nil, List.length_cons] at hl
  omega

/-- Scheduler state with both timers at zero and the link flag cached. -/
def st0 : DeviceState := ⟨0, 0, true⟩

/-- Iteration inputs at t = 60000 ms with the link up, a healthy battery
and an empty command list in the heartbeat response. -/
def inp0 : LoopInputs :=
  ⟨60000, true, false, sampleSensors, 4095, 4095, 4095, -60, 1000, ⟨true, some []⟩⟩

/-- Iteration inputs with a fully drained battery (raw ADC sample 0). -/
def inpLow : LoopInputs :=
  ⟨0, true, false, sampleSensors, 0, 0, 0, -60, 1000, ⟨true, some []⟩⟩

/-- Iteration inputs with the link down and reconnection failing. -/
def inpDown : LoopInputs :=
  ⟨60000, false, false, sampleSensors, 4095, 4095, 4095, -60, 1000, ⟨true, some []⟩⟩

/-! ### C1: low battery forces deep sleep this iteration -/

/-- C1: in any iteration whose battery sample is below 3.3 V (and whose
heartbeat delivered no run-ending command, so control reaches the
battery check), the run ends in that same iteration: the successor state
is none and the final action is the deep-sleep transition with the
3600-second wake timer, which equals neither the telemetry nor the
heartbeat interval; nothing at all runs after it. -/
theorem C1_low_battery_deep_sleep (st : DeviceState) (inp : LoopInputs)
    (hbatt : batteryVoltage inp.batteryRawCheck < 33/10)
    (hcmd : noTerminalCmd (inp.hb.decoded.getD [])) :
    (loopIteration st inp).2 = none ∧
    (loopIteration st inp).1.getLast? = some (Action.deepSleepStart 3600) ∧
    3600 * 1000 ≠ DATA_INTERVAL ∧ 3600 * 1000 ≠ HEARTBEAT_INTERVAL := by
  have hhb : (sendHeartbeatActions inp.currentTime inp.sensors inp.batteryRawHb inp.rssi
      inp.freeHeap inp.hb).2 = CmdEffect.proceed :=
    sendHeartbeat_proceed _ _ _ _ _ _ hcmd
  refine ⟨?_, ?_, by norm_num [DATA_INTERVAL], by norm_num [HEARTBEAT_INTERVAL]⟩ <;>
    by_cases h1 : DATA_INTERVAL ≤ elapsedSince inp.currentTime st.lastDataSend <;>
    by_cases h3 : linkState inp = true <;>
    by_cases h2 : HEARTBEAT_INTERVAL ≤ elapsedSince inp.currentTime st.lastHeartbeat <;>
    simp [loopIteration, h1, h2, h3, hhb, hbatt, enterDeepSleep, List.getLast?_concat]

/-- C1 witness: with a drained battery at t = 0 the iteration ends the
run with the one-hour deep sleep as its last action. -/
theorem C1_low_battery_deep_sleep_witness :
    (loopIteration st0 inpLow).2 = none ∧
    (loopIteration st0 inpLow).1.getLast? = some (Action.deepSleepStart 3600) ∧
    3600 * 1000 ≠ DATA_INTERVAL ∧ 3600 * 1000 ≠ HEARTBEAT_INTERVAL :=
  C1_low_battery_deep_sleep st0 inpLow (by norm_num [inpLow, batteryVoltage])
    (fun c hc => absurd hc (List.not_mem_nil c))

/-! ### C2: telemetry send conditions -/

/-- C2: a telemetry POST occurs in an iteration exactly when the
telemetry interval has elapsed since the last send, the link state is
connected, and the collected batch is non-empty. -/
theorem C2_telemetry_iff (st : DeviceState) (inp : LoopInputs) :
    (∃ b, Action.postSensorData b ∈ (loopIteration st inp).1) ↔
      (DATA_INTERVAL ≤ elapsedSince inp.currentTime st.lastDataSend ∧
       linkState inp = true ∧
       collectReadings inp.currentTime inp.sensors ≠ []) := by
  by_cases h1 : DATA_INTERVAL ≤ elapsedSince inp.currentTime st.lastDataSend <;>
    by_cases h3 : linkState inp = true <;>
    by_cases h5 : collectReadings inp.currentTime inp.sensors = [] <;>
    by_cases h2 : HEARTBEAT_INTERVAL ≤ elapsedSince inp.currentTime st.lastHeartbeat <;>
    cases hEff : (sendHeartbeatActions inp.currentTime inp.sensors inp.batteryRawHb inp.rssi
      inp.freeHeap inp.hb).2 <;>
    by_cases h4 : batteryVoltage inp.batteryRawCheck < 33/10 <;>
    simp [loopIteration, h1, h2, h3, h4, h5, hEff, sendSensorDataActions, enterDeepSleep,
      sendHeartbeat_no_sensorData, List.length_pos]

/-- C2 witness: at t = 60000 ms with the link up the iteration posts the
collected batch. -/
theorem C2_telemetry_iff_witness :
    ∃ b, Action.postSensorData b ∈ (loopIteration st0 inp0).1 :=
  (C2_telemetry_iff st0 inp0).mpr
    ⟨by decide, by decide, collectReadings_ne_nil 60000 sampleSensors⟩

/-! ### C6: unknown command -/

/-- C6: a command of unknown type produces exactly one outcome, failed
with message "unknown command", and an iteration that delivers such a
command reaches the same successor state (timers, connectivity, power
path) as one delivering no command at all. -/
theorem C6_unknown_command_no_mutation (now : ℕ) (id s : String) (d : Option ℤ)
    (st : DeviceState) (inp : LoopInputs) :
    processCommand now ⟨id, CommandType.other s, d⟩ =
      ([Action.postCommandResponse id "failed" "unknown command" now], CmdEffect.proceed) ∧
    (loopIteration st {inp with hb := ⟨true, some [⟨id, CommandType.other s, d⟩]⟩}).2 =
      (loopIteration st {inp with hb := ⟨true, some []⟩}).2 := by
  refine ⟨rfl, ?_⟩
  by_cases h1 : DATA_INTERVAL ≤ elapsedSince inp.currentTime st.lastDataSend <;>
    by_cases h3 : inp.wifiStatusConnected = true ∨ inp.reconnectSucceeds = true <;>
    by_cases h2 : HEARTBEAT_INTERVAL ≤ elapsedSince inp.currentTime st.lastHeartbeat <;>
    by_cases h4 : batteryVoltage inp.batteryRawCheck < 33/10 <;>
    simp [loopIteration, sendHeartbeatActions, processCommands, processCommand, linkState,
      h1, h2, h3, h4]

/-! ### C7: transmissions and link state -/

/-- C7 counterexample: during initialization the WiFi connection attempt
fails (the link flag after connectToWiFi is false), yet setup still
performs the initial heartbeat transmission — a transmission occurs
while the link state is not Connected. -/
theorem C7_setup_transmits_disconnected :
    (setupRun false 0 sampleSensors 0 0 0 ⟨true, some []⟩).1 = false ∧
    (setupRun false 0 sampleSensors 0 0 0 ⟨true, some []⟩).2.1.filter isTransmission ≠ [] := by
  refine ⟨rfl, ?_⟩
  simp [setupRun, sendHeartbeatActions, isTransmission]

/-- C7 amended: within the scheduler loop every transmission requires
the link state computed that iteration to be connected — when it is not,
the iteration performs no transmission at all (skipped, not queued);
setup, however, always attempts the initial heartbeat transmission,
whatever the connection outcome. -/
theorem C7_loop_transmissions_gated (st : DeviceState) (inp : LoopInputs) (c : Bool)
    (now : ℕ) (s : SensorInputs) (braw : ℕ) (rssi : ℤ) (fh : ℕ) (hb : HeartbeatInputs) :
    (linkState inp = false → (loopIteration st inp).1.filter isTransmission = []) ∧
    (setupRun c now s braw rssi fh hb).2.1.filter isTransmission ≠ [] := by
  constructor
  · intro hl
    by_cases h1 : DATA_INTERVAL ≤ elapsedSince inp.currentTime st.lastDataSend <;>
      by_cases h2 : HEARTBEAT_INTERVAL ≤ elapsedSince inp.currentTime st.lastHeartbeat <;>
      by_cases h4 : batteryVoltage inp.batteryRawCheck < 33/10 <;>
      simp [loopIteration, h1, h2, h4, hl, isTransmission, enterDeepSleep]
  · unfold setupRun sendHeartbeatActions
    by_cases ht : hb.transportOk <;> by_cases hlc : 0 < (hb.decoded.getD []).length <;>
      simp [ht, hlc, isTransmission, List.filter]

/-- C7 amended witness: with the link down and reconnection failing the
iteration performs no transmission. -/
theorem C7_loop_transmissions_gated_witness :
    (loopIteration st0 inpDown).1.filter isTransmission = [] :=
  (C7_loop_transmissions_gated st0 inpDown false 0 sampleSensors 0 0 0 ⟨true, some []⟩).1
    (by decide)

/-! ### C9: the batch is never empty -/

/-- C9: the acceleration reading is appended unconditionally, so the
collected batch is never empty and the empty-batch skip never fires:
whenever the telemetry interval has elapsed and the link is connected,
the batch is posted. -/
theorem C9_batch_never_empty (st : DeviceState) (inp : LoopInputs)
    (h1 : DATA_INTERVAL ≤ elapsedSince inp.currentTime st.lastDataSend)
    (h3 : linkState inp = true) :
    collectReadings inp.currentTime inp.sensors ≠ [] ∧
    sendSensorDataActions inp.currentTime inp.sensors =
      [Action.postSensorData (collectReadings inp.currentTime inp.sensors)] ∧
    Action.postSensorData (collectReadings inp.currentTime inp.sensors) ∈
      (loopIteration st inp).1 := by
  have hne := collectReadings_ne_nil inp.currentTime inp.sensors
  have hsend : sendSensorDataActions inp.currentTime inp.sensors =
      [Action.postSensorData (collectReadings inp.currentTime inp.sensors)] := by
    unfold sendSensorDataActions
    rw [if_pos]
    exact List.length_pos.2 hne
  refine ⟨hne, hsend, ?_⟩
  by_cases h2 : HEARTBEAT_INTERVAL ≤ elapsedSince inp.currentTime st.lastHeartbeat <;>
    cases hEff : (sendHeartbeatActions inp.currentTime inp.sensors inp.batteryRawHb inp.rssi
      inp.freeHeap inp.hb).2 <;>
    by_cases h4 : batteryVoltage inp.batteryRawCheck < 33/10 <;>
    simp [loopIteration, h1, h2, h3, h4, hEff, hsend]

/-- C9 witness: at t = 60000 ms with the link up the non-empty batch is
posted. -/
theorem C9_batch_never_empty_witness :
    collectReadings inp0.currentTime inp0.sensors ≠ [] ∧
    Action.postSensorData (collectReadings inp0.currentTime inp0.sensors) ∈
      (loopIteration st0 inp0).1 :=
  ⟨(C9_batch_never_empty st0 inp0 (by decide) (by decide)).1,
   (C9_batch_never_empty st0 inp0 (by decide) (by decide)).2.2⟩

end SensorNode
